import Mathlib

/-!
Shallow embedding of the realtime voice session engine of
`rig-experimental` (files `src/providers/openai_realtime/realtime.rs`,
`src/providers/openai_realtime/client.rs` and the jitter-buffer /
capture pipeline of `examples/openai_rt_cpal.rs`).

Wire frames are text frames carrying JSON; we model the JSON payload as
an inductive `Json` value (numbers as exact rationals — none of the
verified properties depend on float rounding, only on values being
carried through unchanged).  The serde-derived (de)serializers of the
Rust source are rendered field by field: `skip_serializing_if =
"Option::is_none"` becomes the `optField` combinator (absent fields are
omitted), an `Option` field without that attribute serializes `None` as
`null` (`encNullable`), `#[serde(flatten)]` splices the inner object's
fields, `#[serde(tag = "type")]` adds the discriminator pair, and
`#[serde(untagged)]` tries the variants in declaration order.
Deserialization of a struct looks each known field up by name, ignores
unknown keys (serde's default), treats a missing or `null` `Option`
field as `None`, and fails (`none`) when a present field has the wrong
shape.
-/

/-- JSON values; numbers carried as exact rationals. -/
inductive Json where
  | null
  | bool (b : Bool)
  | num (q : Rat)
  | str (s : String)
  | arr (elems : List Json)
  | obj (fields : List (String × Json))

/-- First binding of a key in a JSON object, as serde's field lookup. -/
def jlookup : List (String × Json) → String → Option Json
  | [], _ => none
  | (k, v) :: rest, n => if k = n then some v else jlookup rest n

def Json.getObj : Json → Option (List (String × Json))
  | .obj fields => some fields
  | _ => none

def Json.getArr : Json → Option (List Json)
  | .arr elems => some elems
  | _ => none

def Json.isNull : Json → Bool
  | .null => true
  | _ => false

/-- Serialize an optional struct field marked
`#[serde(skip_serializing_if = "Option::is_none")]`: absent fields are
omitted from the object entirely. -/
def optField (name : String) (f : α → Json) : Option α → List (String × Json)
  | none => []
  | some v => [(name, f v)]

/-- Serialize an `Option` field without a skip attribute: `None`
becomes an explicit `null`. -/
def encNullable (f : α → Json) : Option α → Json
  | none => .null
  | some v => f v

/-- Deserialize an `Option<T>` struct field from its (possibly absent)
JSON value: missing or `null` is `None`, any other value must parse. -/
def decodeOptField (dec : Json → Option α) : Option Json → Option (Option α)
  | none => some none
  | some v => if v.isNull then some none else (dec v).map some

def decodeString : Json → Option String
  | .str s => some s
  | _ => none

def decodeRat : Json → Option Rat
  | .num q => some q
  | _ => none

def decodeBool : Json → Option Bool
  | .bool b => some b
  | _ => none

/-- A Rust `u64` value: a natural number below `2^64`. -/
abbrev U64 : Type := {n : ℕ // n < 2 ^ 64}

/-- serde's `u64`: accepts a JSON number that is a nonnegative integer
below `2^64`. -/
def decodeU64 : Json → Option U64
  | .num q =>
      if h : q.den = 1 ∧ 0 ≤ q.num ∧ q.num < 2 ^ 64 then
        some ⟨q.num.toNat, by omega⟩
      else none
  | _ => none

def encodeU64 (n : U64) : Json := .num (n.val : Rat)

/-- Deserialize every element of a JSON array. -/
def decodeElems (dec : Json → Option α) : List Json → Option (List α)
  | [] => some []
  | x :: xs => do
      let a ← dec x
      let rest ← decodeElems dec xs
      pure (a :: rest)

def decodeListOf (dec : Json → Option α) (j : Json) : Option (List α) := do
  decodeElems dec (← j.getArr)

/- ---------------------------------------------------------------------
Data model of `realtime.rs`.
--------------------------------------------------------------------- -/

/-- `Modality`, `#[serde(rename_all = "lowercase")]`. -/
inductive Modality where
  | Text
  | Audio
deriving DecidableEq, Repr

def encodeModality : Modality → Json
  | .Text => .str "text"
  | .Audio => .str "audio"

def decodeModality : Json → Option Modality
  | .str "text" => some .Text
  | .str "audio" => some .Audio
  | _ => none

/-- `AudioFormat`, `#[serde(rename_all = "lowercase")]`. -/
inductive AudioFormat where
  | Pcm16
deriving DecidableEq, Repr

def encodeAudioFormat : AudioFormat → Json
  | .Pcm16 => .str "pcm16"

def decodeAudioFormat : Json → Option AudioFormat
  | .str "pcm16" => some .Pcm16
  | _ => none

/-- `TurnDetectionKind`, single variant renamed `server_vad`. -/
inductive TurnDetectionKind where
  | ServerVad
deriving DecidableEq, Repr

def encodeTurnDetectionKind : TurnDetectionKind → Json
  | .ServerVad => .str "server_vad"

def decodeTurnDetectionKind : Json → Option TurnDetectionKind
  | .str "server_vad" => some .ServerVad
  | _ => none

/-- `TurnDetection`: five `Option` fields, none carrying a skip
attribute, so `None` serializes as `null`.  The source field
`prefix_padding_ms` is rendered `prefixPaddingMs`, and the field
serde-renamed to `type` is `kind` as in the source. -/
structure TurnDetection where
  kind : Option TurnDetectionKind
  threshold : Option Rat
  prefixPaddingMs : Option U64
  silence_duration_ms : Option U64
  create_response : Option Bool
deriving DecidableEq, Repr

def encodeTurnDetection (td : TurnDetection) : Json :=
  .obj [("type", encNullable encodeTurnDetectionKind td.kind),
        ("threshold", encNullable Json.num td.threshold),
        ("prefix_padding_ms", encNullable encodeU64 td.prefixPaddingMs),
        ("silence_duration_ms", encNullable encodeU64 td.silence_duration_ms),
        ("create_response", encNullable Json.bool td.create_response)]

def decodeTurnDetection (j : Json) : Option TurnDetection := do
  let fields ← j.getObj
  let kind ← decodeOptField decodeTurnDetectionKind (jlookup fields "type")
  let threshold ← decodeOptField decodeRat (jlookup fields "threshold")
  let pp ← decodeOptField decodeU64 (jlookup fields "prefix_padding_ms")
  let sd ← decodeOptField decodeU64 (jlookup fields "silence_duration_ms")
  let cr ← decodeOptField decodeBool (jlookup fields "create_response")
  pure ⟨kind, threshold, pp, sd, cr⟩

/-- `TurnDetection::with_openai_defaults`. -/
def TurnDetection.with_openai_defaults : TurnDetection :=
  ⟨some .ServerVad, some (1 / 2 : Rat), some ⟨300, by omega⟩, some ⟨500, by omega⟩, some true⟩

/-- `InputAudioTranscription { model: String }`. -/
structure InputAudioTranscription where
  model : String
deriving DecidableEq, Repr

def encodeInputAudioTranscription (t : InputAudioTranscription) : Json :=
  .obj [("model", .str t.model)]

def decodeInputAudioTranscription (j : Json) : Option InputAudioTranscription := do
  let fields ← j.getObj
  let m ← (jlookup fields "model").bind decodeString
  pure ⟨m⟩

/-- `rig::providers::openai::ToolDefinition` (external dependency of the
repository, used as `Session.tools`): `{ name, description, parameters:
serde_json::Value }`. -/
structure ToolDefinition where
  name : String
  description : String
  parameters : Json

def encodeToolDefinition (t : ToolDefinition) : Json :=
  .obj [("name", .str t.name), ("description", .str t.description),
        ("parameters", t.parameters)]

def decodeToolDefinition (j : Json) : Option ToolDefinition := do
  let fields ← j.getObj
  let n ← (jlookup fields "name").bind decodeString
  let d ← (jlookup fields "description").bind decodeString
  let p ← jlookup fields "parameters"
  pure ⟨n, d, p⟩

/-- `Session`: ten independently optional fields, every one marked
`skip_serializing_if = "Option::is_none"`. -/
structure Session where
  modalities : Option (List Modality)
  instructions : Option String
  voice : Option String
  turn_detection : Option TurnDetection
  input_audio_format : Option AudioFormat
  output_audio_format : Option AudioFormat
  input_audio_transcription : Option InputAudioTranscription
  tools : Option (List ToolDefinition)
  temperature : Option Rat
  speed : Option Rat

def encodeModalities (l : List Modality) : Json := .arr (l.map encodeModality)

def encodeTools (l : List ToolDefinition) : Json := .arr (l.map encodeToolDefinition)

/-- The field list of a serialized `Session`, in declaration order,
unset fields omitted. -/
def sessionFields (s : Session) : List (String × Json) :=
  optField "modalities" encodeModalities s.modalities ++
  optField "instructions" Json.str s.instructions ++
  optField "voice" Json.str s.voice ++
  optField "turn_detection" encodeTurnDetection s.turn_detection ++
  optField "input_audio_format" encodeAudioFormat s.input_audio_format ++
  optField "output_audio_format" encodeAudioFormat s.output_audio_format ++
  optField "input_audio_transcription" encodeInputAudioTranscription
    s.input_audio_transcription ++
  optField "tools" encodeTools s.tools ++
  optField "temperature" Json.num s.temperature ++
  optField "speed" Json.num s.speed

def encodeSession (s : Session) : Json := .obj (sessionFields s)

def decodeSession (j : Json) : Option Session := do
  let fields ← j.getObj
  let modalities ← decodeOptField (decodeListOf decodeModality)
    (jlookup fields "modalities")
  let instructions ← decodeOptField decodeString (jlookup fields "instructions")
  let voice ← decodeOptField decodeString (jlookup fields "voice")
  let td ← decodeOptField decodeTurnDetection (jlookup fields "turn_detection")
  let iaf ← decodeOptField decodeAudioFormat (jlookup fields "input_audio_format")
  let oaf ← decodeOptField decodeAudioFormat (jlookup fields "output_audio_format")
  let iat ← decodeOptField decodeInputAudioTranscription
    (jlookup fields "input_audio_transcription")
  let tools ← decodeOptField (decodeListOf decodeToolDefinition)
    (jlookup fields "tools")
  let temperature ← decodeOptField decodeRat (jlookup fields "temperature")
  let speed ← decodeOptField decodeRat (jlookup fields "speed")
  pure ⟨modalities, instructions, voice, td, iaf, oaf, iat, tools, temperature, speed⟩

/-- `Session::new()`, i.e. `Session::default()`: every field `None`. -/
def Session.new : Session :=
  ⟨none, none, none, none, none, none, none, none, none, none⟩

/- Builder methods of `Session` (each sets exactly its own field).  The
Lean field projections already take the Rust method names, so the
builders carry a prime: `Session.voice'` renders `Session::voice`, and
so on. -/

def Session.voice' (s : Session) (v : String) : Session := { s with voice := some v }

def Session.instructions' (s : Session) (v : String) : Session :=
  { s with instructions := some v }

def Session.turn_detection' (s : Session) (cfg : TurnDetection) : Session :=
  { s with turn_detection := some cfg }

def Session.input_audio_format' (s : Session) (format : AudioFormat) : Session :=
  { s with input_audio_format := some format }

def Session.output_audio_format' (s : Session) (format : AudioFormat) : Session :=
  { s with output_audio_format := some format }

def Session.modalities' (s : Session) (arr : List Modality) : Session :=
  { s with modalities := some arr }

def Session.speed' (s : Session) (v : Rat) : Session := { s with speed := some v }

/- ---------------------------------------------------------------------
Input events (outbound direction).
--------------------------------------------------------------------- -/

/-- `InputEventKind`, `#[serde(tag = "type")]` with per-variant
renames. -/
inductive InputEventKind where
  | CommitAudioInputBuffer
  | ClearAudioInputBuffer
  | AppendAudioInput (audio : String)
  | UpdateSession (session : Session)

/-- `InputEvent`: optional `event_id` (skipped when `None`) plus the
flattened tagged kind. -/
structure InputEvent where
  event_id : Option String
  data : InputEventKind

def InputEvent.new (data : InputEventKind) : InputEvent := ⟨none, data⟩

def InputEvent.commit_audio : InputEvent := .new .CommitAudioInputBuffer

def InputEvent.clear_audio : InputEvent := .new .ClearAudioInputBuffer

def InputEvent.append_audio (input : String) : InputEvent :=
  .new (.AppendAudioInput input)

def InputEvent.update_session (session : Session) : InputEvent :=
  .new (.UpdateSession session)

def InputEvent.with_id (e : InputEvent) (id : String) : InputEvent :=
  { e with event_id := some id }

/-- The flattened, tagged fields of an `InputEventKind`. -/
def inputEventKindFields : InputEventKind → List (String × Json)
  | .CommitAudioInputBuffer => [("type", .str "input_audio_buffer.commit")]
  | .ClearAudioInputBuffer => [("type", .str "input_audio_buffer.clear")]
  | .AppendAudioInput audio =>
      [("type", .str "input_audio_buffer.append"), ("audio", .str audio)]
  | .UpdateSession session =>
      [("type", .str "session.update"), ("session", encodeSession session)]

/-- `serde_json::to_string(&message)` of the pump, up to JSON
rendering: the structured frame written to the wire. -/
def encodeInputEvent (e : InputEvent) : Json :=
  .obj (optField "event_id" Json.str e.event_id ++ inputEventKindFields e.data)

/- ---------------------------------------------------------------------
Received events (inbound direction).
--------------------------------------------------------------------- -/

/-- `SessionEvent`, `#[serde(tag = "type")]`. -/
inductive SessionEvent where
  | SessionCreated (session : Session)
  | SessionUpdated (session : Session)

/-- `ReceivedItemEventKind`, `#[serde(tag = "type")]`. -/
inductive ReceivedItemEventKind where
  | AudioDelta (delta : String)
  | AudioDone

/-- `ReceivedEventKind`, `#[serde(untagged)]`: the `Session` shape is
tried first, then the `Item` shape. -/
inductive ReceivedEventKind where
  | Session (e : SessionEvent)
  | Item (item_id : String) (response_id : String) (output_index : U64)
      (content_index : U64) (data : ReceivedItemEventKind)

/-- `ReceivedEvent`: optional `event_id` plus the flattened untagged
kind. -/
structure ReceivedEvent where
  event_id : Option String
  data : ReceivedEventKind

def encodeSessionEvent : SessionEvent → List (String × Json)
  | .SessionCreated s => [("type", .str "session.created"), ("session", encodeSession s)]
  | .SessionUpdated s => [("type", .str "session.updated"), ("session", encodeSession s)]

def encodeReceivedItemEventKind : ReceivedItemEventKind → List (String × Json)
  | .AudioDelta delta => [("type", .str "response.audio.delta"), ("delta", .str delta)]
  | .AudioDone => [("type", .str "response.audio.done")]

def encodeReceivedEventKind : ReceivedEventKind → List (String × Json)
  | .Session e => encodeSessionEvent e
  | .Item item_id response_id output_index content_index data =>
      [("item_id", .str item_id), ("response_id", .str response_id),
       ("output_index", encodeU64 output_index),
       ("content_index", encodeU64 content_index)] ++
      encodeReceivedItemEventKind data

def encodeReceivedEvent (e : ReceivedEvent) : Json :=
  .obj (optField "event_id" Json.str e.event_id ++ encodeReceivedEventKind e.data)

/-- Decode the internally tagged `SessionEvent` from the frame's
object. -/
def decodeSessionEvent (j : Json) : Option SessionEvent := do
  let fields ← j.getObj
  let tag ← (jlookup fields "type").bind decodeString
  if tag = "session.created" then
    let s ← (jlookup fields "session").bind decodeSession
    pure (.SessionCreated s)
  else if tag = "session.updated" then
    let s ← (jlookup fields "session").bind decodeSession
    pure (.SessionUpdated s)
  else none

def decodeReceivedItemEventKind (fields : List (String × Json)) :
    Option ReceivedItemEventKind := do
  let tag ← (jlookup fields "type").bind decodeString
  if tag = "response.audio.delta" then
    let d ← (jlookup fields "delta").bind decodeString
    pure (.AudioDelta d)
  else if tag = "response.audio.done" then
    pure .AudioDone
  else none

def decodeItemEvent (j : Json) : Option ReceivedEventKind := do
  let fields ← j.getObj
  let item_id ← (jlookup fields "item_id").bind decodeString
  let response_id ← (jlookup fields "response_id").bind decodeString
  let output_index ← (jlookup fields "output_index").bind decodeU64
  let content_index ← (jlookup fields "content_index").bind decodeU64
  let data ← decodeReceivedItemEventKind fields
  pure (.Item item_id response_id output_index content_index data)

/-- Untagged dispatch: serde tries the `Session` variant first, then
`Item`. -/
def decodeReceivedEventKind (j : Json) : Option ReceivedEventKind :=
  match decodeSessionEvent j with
  | some e => some (.Session e)
  | none => decodeItemEvent j

/-- `serde_json::from_str::<ReceivedEvent>` on a text frame's JSON. -/
def decodeReceivedEvent (j : Json) : Option ReceivedEvent := do
  let fields ← j.getObj
  let event_id ← decodeOptField decodeString (jlookup fields "event_id")
  let data ← decodeReceivedEventKind j
  pure ⟨event_id, data⟩

/- ---------------------------------------------------------------------
The inbound stream (`realtime_voice`, the `filter_map` over `ws_rx`).
A websocket read yields either an error or a message; a text message
carries a payload that may or may not be valid JSON.
--------------------------------------------------------------------- -/

/-- A message from the read half.  `text` carries the parse of the
payload (`none` when the text is not JSON at all); `binary`, `ping`,
`pong` and `close` are the non-text message kinds. -/
inductive WsMessage where
  | text (payload : Option Json)
  | binary
  | ping
  | pong
  | close

/-- One item of `ws_rx`: `Result<Message, Error>`. -/
inductive WsResult where
  | ok (m : WsMessage)
  | err

/-- The body of the `filter_map` closure: a text frame is parsed as a
`ReceivedEvent` (parse failure ↦ `none` via `.ok()`), errors and
non-text messages are logged and dropped. -/
def processMsg : WsResult → Option ReceivedEvent
  | .ok (.text (some j)) => decodeReceivedEvent j
  | .ok (.text none) => none
  | .err => none
  | .ok _ => none

/-- The mapped stream: every inbound item is consumed, the decodable
ones are yielded in order.  (On a list prefix of the infinite stream;
`filter_map` never ends the stream on a dropped item, the stream ends
only when `ws_rx` does.) -/
def processInbound (msgs : List WsResult) : List ReceivedEvent :=
  msgs.filterMap processMsg

/- ---------------------------------------------------------------------
The outbound pump (`tokio::spawn` loop of `realtime_voice`): a single
task owning the write half drains the `mpsc` queue one event at a time
and writes each serialized frame with `ws_tx.send(..).await.unwrap()`.
--------------------------------------------------------------------- -/

/-- Result of one `ws_tx.send`. -/
inductive SendResult where
  | ok
  | transportError
deriving DecidableEq, Repr

/-- How the pump task ends. -/
inductive PumpExit where
  | queueClosed
  | panicked
deriving DecidableEq, Repr

/-- The pump loop.  `sendRes i` is what the write half returns for the
`i`-th send.  `rx.recv()` yielding `None` (queue closed, all senders
dropped) ends the loop normally; a send error makes the `.unwrap()`
panic, ending the task at once.  Returns the frames that were written
to the wire and how the task ended. -/
def pumpLoop (sendRes : Nat → SendResult) :
    Nat → List InputEvent → List Json → List Json × PumpExit
  | _, [], wire => (wire, .queueClosed)
  | i, e :: rest, wire =>
      match sendRes i with
      | .ok => pumpLoop sendRes (i + 1) rest (wire ++ [encodeInputEvent e])
      | .transportError => (wire, .panicked)

/-- A run of the pump over the whole queue contents. -/
def pumpRun (sendRes : Nat → SendResult) (evts : List InputEvent) :
    List Json × PumpExit :=
  pumpLoop sendRes 0 evts []

/-- What the caller awaiting the session receives from the pump task:
`tokio::spawn`'s `JoinHandle` is dropped on the spot in
`realtime_voice`, so no outcome of the task — panic included — is ever
delivered to anyone. -/
def pumpSurfacedToCaller (_evts : List InputEvent) (_sendRes : Nat → SendResult) :
    Option SendResult := none

/- ---------------------------------------------------------------------
Connection establishment (`client.rs` and the head of
`realtime_voice`).
--------------------------------------------------------------------- -/

/-- Connect-time failure causes distinguished by the spec. -/
inductive ConnError where
  | handshakeRejected
  | badCredentials
  | unknownEndpoint
  | networkFailure
deriving DecidableEq, Repr

/-- The upgraded duplex socket is an external resource
(`reqwest_websocket::WebSocket`); only its identity matters here. -/
structure WebSocket where
  handle : Nat
deriving DecidableEq, Repr

/-- `Client::initiate_websocket`: builds the upgrade request and
performs exactly one attempt; every fallible step propagates its error
with `?`.  The network's answer is the argument. -/
def initiate_websocket (handshake : Except ConnError WebSocket) :
    Except ConnError WebSocket :=
  handshake

/-- What `realtime_voice` does with the handshake result, as observed
by the caller. -/
inductive ConnectOutcome where
  | ok (ws : WebSocket)
  | errorReturned (e : ConnError)
  | panicked
deriving DecidableEq, Repr

/-- The head of `realtime_voice`:
`self.client.initiate_websocket(&path).await.inspect_err(|x| println!(..)).unwrap()`
— on a rejected handshake the error is printed and `.unwrap()` panics;
only on success does the function go on to split the socket and return
`Ok((tx, mapped_stream))`. -/
def realtime_voice_connect (handshake : Except ConnError WebSocket) :
    ConnectOutcome :=
  match initiate_websocket handshake with
  | .error _ => .panicked
  | .ok ws => .ok ws

/- ---------------------------------------------------------------------
Playback jitter buffer (`StreamingSource` of `examples/openai_rt_cpal.rs`).
Samples are `i16`, modelled as integers; the shared `VecDeque<i16>` is a
list with its front at the head.
--------------------------------------------------------------------- -/

/-- Writer side: `guard.extend(samples)` appends the decoded samples to
the back of the queue (under a blocking `lock().await`). -/
def jbPush (q : List Int) (samples : List Int) : List Int := q ++ samples

/-- Reader side, `StreamingSource::next`: `try_lock` fails under
contention, and `.ok()?` then makes `next` return `None`; with the lock
held, `pop_front().or(Some(0))` yields the front sample or silence.
Returns the yielded item and the queue afterwards. -/
def jbNext (contended : Bool) (q : List Int) : Option Int × List Int :=
  if contended then (none, q)
  else
    match q with
    | [] => (some 0, [])
    | x :: rest => (some x, rest)

/-- `n` consecutive uncontended pulls: the items yielded and the final
queue. -/
def jbPulls : Nat → List Int → List (Option Int) × List Int
  | 0, q => ([], q)
  | n + 1, q =>
      let (item, q') := jbNext false q
      let (items, qFinal) := jbPulls n q'
      (item :: items, qFinal)

/- ---------------------------------------------------------------------
Capture handoff (`record_audio` of `examples/openai_rt_cpal.rs`): the
audio callback downmixes and sends the mono chunk over a
`std::sync::mpsc::channel::<Vec<f32>>()` with `let _ = audio_tx.send(mono)`.
--------------------------------------------------------------------- -/

/-- A downmixed mono capture chunk (its float contents are irrelevant
to the handoff's queueing behaviour). -/
structure Chunk where
  samples : List Rat
deriving DecidableEq, Repr

/-- `std::sync::mpsc::Sender::send` on the capture handoff, as the
callback uses it: the channel is unbounded, so a send never blocks and
always appends when the receiver is connected; with the receiver gone
the send errors and `let _ = ...` discards the chunk. -/
def handoffSend (connected : Bool) (q : List Chunk) (c : Chunk) : List Chunk :=
  if connected then q ++ [c] else q

/-- The queue after the callback has sent a whole series of chunks into
an initially empty, connected handoff. -/
def handoffAfterSends (cs : List Chunk) : List Chunk :=
  cs.foldl (handoffSend true) []

/- ---------------------------------------------------------------------
Lemmas about field lookup and the codec.
--------------------------------------------------------------------- -/

theorem jlookup_append (l₁ l₂ : List (String × Json)) (n : String) :
    jlookup (l₁ ++ l₂) n = (jlookup l₁ n).or (jlookup l₂ n) := by
  induction l₁ with
  | nil => simp [jlookup]
  | cons kv rest ih =>
      obtain ⟨k, v⟩ := kv
      by_cases h : k = n <;> simp [jlookup, h, ih]

@[simp]
theorem jlookup_optField_eq (name : String) (f : α → Json) (x : Option α) :
    jlookup (optField name f x) name = x.map f := by
  cases x <;> simp [optField, jlookup]

@[simp]
theorem jlookup_optField_ne (name m : String) (h : name ≠ m) (f : α → Json)
    (x : Option α) :
    jlookup (optField name f x) m = none := by
  cases x <;> simp [optField, jlookup, h]

theorem decodeOptField_map (dec : Json → Option α) (f : α → Json)
    (hdec : ∀ v, dec (f v) = some v) (hnn : ∀ v, (f v).isNull = false)
    (x : Option α) :
    decodeOptField dec (x.map f) = some x := by
  cases x with
  | none => rfl
  | some v => simp [decodeOptField, hnn v, hdec v]

theorem decodeOptField_encNullable (dec : Json → Option α) (f : α → Json)
    (hdec : ∀ v, dec (f v) = some v) (hnn : ∀ v, (f v).isNull = false)
    (x : Option α) :
    decodeOptField dec (some (encNullable f x)) = some x := by
  cases x with
  | none => rfl
  | some v => simp [decodeOptField, encNullable, hnn v, hdec v]

theorem decodeElems_map (dec : Json → Option α) (f : α → Json)
    (hdec : ∀ v, dec (f v) = some v) (l : List α) :
    decodeElems dec (l.map f) = some l := by
  induction l with
  | nil => rfl
  | cons m rest ih => simp [decodeElems, hdec m, ih]

theorem decodeModality_roundtrip (m : Modality) :
    decodeModality (encodeModality m) = some m := by
  cases m <;> rfl

theorem decodeModalities_roundtrip (l : List Modality) :
    decodeListOf decodeModality (encodeModalities l) = some l := by
  simp [decodeListOf, encodeModalities, Json.getArr,
    decodeElems_map decodeModality encodeModality decodeModality_roundtrip]

theorem decodeAudioFormat_roundtrip (a : AudioFormat) :
    decodeAudioFormat (encodeAudioFormat a) = some a := by
  cases a <;> rfl

theorem decodeTurnDetectionKind_roundtrip (k : TurnDetectionKind) :
    decodeTurnDetectionKind (encodeTurnDetectionKind k) = some k := by
  cases k <;> rfl

theorem isNull_encodeTurnDetectionKind (k : TurnDetectionKind) :
    (encodeTurnDetectionKind k).isNull = false := by cases k <;> rfl

theorem isNull_encodeAudioFormat (a : AudioFormat) :
    (encodeAudioFormat a).isNull = false := by cases a <;> rfl

theorem decodeU64_encodeU64 (n : U64) : decodeU64 (encodeU64 n) = some n := by
  obtain ⟨v, hv⟩ := n
  have h : ((v : ℚ)).den = 1 ∧ 0 ≤ ((v : ℚ)).num ∧ ((v : ℚ)).num < 2 ^ 64 := by
    refine ⟨Rat.den_natCast v, ?_, ?_⟩
    · rw [Rat.num_natCast]
      positivity
    · rw [Rat.num_natCast]
      exact_mod_cast hv
  simp [decodeU64, encodeU64, h, Rat.num_natCast]
  try omega

theorem decodeTurnDetection_roundtrip (td : TurnDetection) :
    decodeTurnDetection (encodeTurnDetection td) = some td := by
  obtain ⟨k, th, pp, sd, cr⟩ := td
  simp [encodeTurnDetection, decodeTurnDetection, Json.getObj, jlookup,
    decodeOptField_encNullable decodeTurnDetectionKind encodeTurnDetectionKind
      decodeTurnDetectionKind_roundtrip isNull_encodeTurnDetectionKind,
    decodeOptField_encNullable decodeRat Json.num (fun _ => rfl) (fun _ => rfl),
    decodeOptField_encNullable decodeU64 encodeU64 decodeU64_encodeU64 (fun _ => rfl),
    decodeOptField_encNullable decodeBool Json.bool (fun _ => rfl) (fun _ => rfl)]

theorem decodeInputAudioTranscription_roundtrip (t : InputAudioTranscription) :
    decodeInputAudioTranscription (encodeInputAudioTranscription t) = some t := by
  obtain ⟨m⟩ := t
  rfl

theorem decodeToolDefinition_roundtrip (t : ToolDefinition) :
    decodeToolDefinition (encodeToolDefinition t) = some t := by
  obtain ⟨n, d, p⟩ := t
  rfl

theorem decodeTools_roundtrip (l : List ToolDefinition) :
    decodeListOf decodeToolDefinition (encodeTools l) = some l := by
  simp [decodeListOf, encodeTools, Json.getArr,
    decodeElems_map decodeToolDefinition encodeToolDefinition
      decodeToolDefinition_roundtrip]

theorem sessionFields_modalities (s : Session) :
    jlookup (sessionFields s) "modalities" = s.modalities.map encodeModalities := by
  simp [sessionFields, jlookup_append]

theorem sessionFields_instructions (s : Session) :
    jlookup (sessionFields s) "instructions" = s.instructions.map Json.str := by
  simp [sessionFields, jlookup_append]

theorem sessionFields_voice (s : Session) :
    jlookup (sessionFields s) "voice" = s.voice.map Json.str := by
  simp [sessionFields, jlookup_append]

theorem sessionFields_turn_detection (s : Session) :
    jlookup (sessionFields s) "turn_detection"
      = s.turn_detection.map encodeTurnDetection := by
  simp [sessionFields, jlookup_append]

theorem sessionFields_input_audio_format (s : Session) :
    jlookup (sessionFields s) "input_audio_format"
      = s.input_audio_format.map encodeAudioFormat := by
  simp [sessionFields, jlookup_append]

theorem sessionFields_output_audio_format (s : Session) :
    jlookup (sessionFields s) "output_audio_format"
      = s.output_audio_format.map encodeAudioFormat := by
  simp [sessionFields, jlookup_append]

theorem sessionFields_input_audio_transcription (s : Session) :
    jlookup (sessionFields s) "input_audio_transcription"
      = s.input_audio_transcription.map encodeInputAudioTranscription := by
  simp [sessionFields, jlookup_append]

theorem sessionFields_tools (s : Session) :
    jlookup (sessionFields s) "tools" = s.tools.map encodeTools := by
  simp [sessionFields, jlookup_append]

theorem sessionFields_temperature (s : Session) :
    jlookup (sessionFields s) "temperature" = s.temperature.map Json.num := by
  simp [sessionFields, jlookup_append]

theorem sessionFields_speed (s : Session) :
    jlookup (sessionFields s) "speed" = s.speed.map Json.num := by
  simp [sessionFields, jlookup_append]

/-- Decoding inverts encoding on every `Session` value. -/
theorem decodeSession_encodeSession (s : Session) :
    decodeSession (encodeSession s) = some s := by
  obtain ⟨mo, ins, vo, td, iaf, oaf, iat, tls, te, sp⟩ := s
  simp [decodeSession, encodeSession, Json.getObj,
    sessionFields_modalities, sessionFields_instructions, sessionFields_voice,
    sessionFields_turn_detection, sessionFields_input_audio_format,
    sessionFields_output_audio_format, sessionFields_input_audio_transcription,
    sessionFields_tools, sessionFields_temperature, sessionFields_speed,
    decodeOptField_map (decodeListOf decodeModality) encodeModalities
      decodeModalities_roundtrip (fun _ => rfl),
    decodeOptField_map decodeString Json.str (fun _ => rfl) (fun _ => rfl),
    decodeOptField_map decodeTurnDetection encodeTurnDetection
      decodeTurnDetection_roundtrip (fun _ => rfl),
    decodeOptField_map decodeAudioFormat encodeAudioFormat
      decodeAudioFormat_roundtrip isNull_encodeAudioFormat,
    decodeOptField_map decodeInputAudioTranscription encodeInputAudioTranscription
      decodeInputAudioTranscription_roundtrip (fun _ => rfl),
    decodeOptField_map (decodeListOf decodeToolDefinition) encodeTools
      decodeTools_roundtrip (fun _ => rfl),
    decodeOptField_map decodeRat Json.num (fun _ => rfl) (fun _ => rfl)]

/-- Decoding inverts encoding on every `SessionUpdated` received
event. -/
theorem decodeReceivedEvent_roundtrip_updated (eid : Option String) (s : Session) :
    decodeReceivedEvent (encodeReceivedEvent ⟨eid, .Session (.SessionUpdated s)⟩)
      = some ⟨eid, .Session (.SessionUpdated s)⟩ := by
  simp [decodeReceivedEvent, encodeReceivedEvent, encodeReceivedEventKind,
    encodeSessionEvent, Json.getObj, jlookup_append, jlookup,
    decodeReceivedEventKind, decodeSessionEvent, decodeString,
    decodeSession_encodeSession,
    decodeOptField_map decodeString Json.str (fun _ => rfl) (fun _ => rfl)]

/- ---------------------------------------------------------------------
Lemmas about the outbound pump.
--------------------------------------------------------------------- -/

theorem pumpLoop_wire_take (sendRes : Nat → SendResult) (evts : List InputEvent) :
    ∀ (i : Nat) (wire : List Json),
      ∃ k, (pumpLoop sendRes i evts wire).1
        = wire ++ (evts.take k).map encodeInputEvent := by
  induction evts with
  | nil =>
      intro i wire
      exact ⟨0, by simp [pumpLoop]⟩
  | cons e rest ih =>
      intro i wire
      cases h : sendRes i with
      | ok =>
          obtain ⟨k, hk⟩ := ih (i + 1) (wire ++ [encodeInputEvent e])
          refine ⟨k + 1, ?_⟩
          simp only [pumpLoop, h, hk, List.take_succ_cons, List.map_cons,
            List.append_assoc, List.singleton_append]
      | transportError =>
          exact ⟨0, by simp [pumpLoop, h]⟩

theorem pumpLoop_wire_all_ok (sendRes : Nat → SendResult)
    (hok : ∀ i, sendRes i = SendResult.ok) (evts : List InputEvent) :
    ∀ (i : Nat) (wire : List Json),
      (pumpLoop sendRes i evts wire).1 = wire ++ evts.map encodeInputEvent := by
  induction evts with
  | nil =>
      intro i wire
      simp [pumpLoop]
  | cons e rest ih =>
      intro i wire
      simp [pumpLoop, hok i, ih]

theorem pumpLoop_exit_closed_iff (sendRes : Nat → SendResult) (evts : List InputEvent) :
    ∀ (i : Nat) (wire : List Json),
      (pumpLoop sendRes i evts wire).2 = PumpExit.queueClosed ↔
        ∀ k < evts.length, sendRes (i + k) = SendResult.ok := by
  induction evts with
  | nil =>
      intro i wire
      simp [pumpLoop]
  | cons e rest ih =>
      intro i wire
      cases h : sendRes i with
      | ok =>
          have hstep : pumpLoop sendRes i (e :: rest) wire
              = pumpLoop sendRes (i + 1) rest (wire ++ [encodeInputEvent e]) := by
            simp [pumpLoop, h]
          rw [hstep, ih]
          constructor
          · intro hall k hk
            cases k with
            | zero => simpa using h
            | succ k' =>
                have hk' : k' < rest.length := by simpa using hk
                have := hall k' hk'
                have harith : i + 1 + k' = i + (k' + 1) := by omega
                rwa [harith] at this
          · intro hall k hk
            have hk1 : k + 1 < (e :: rest).length := by simpa using Nat.succ_lt_succ hk
            have := hall (k + 1) hk1
            have harith : i + (k + 1) = i + 1 + k := by omega
            rwa [harith] at this
      | transportError =>
          have hstep : pumpLoop sendRes i (e :: rest) wire = (wire, PumpExit.panicked) := by
            simp [pumpLoop, h]
          rw [hstep]
          constructor
          · intro hfalse
            exact absurd hfalse (by simp)
          · intro hall
            have := hall 0 (by simp)
            simp [h] at this

theorem handoffAfterSends_length (cs : List Chunk) :
    (handoffAfterSends cs).length = cs.length := by
  have h : ∀ (cs q : List Chunk),
      (cs.foldl (handoffSend true) q).length = q.length + cs.length := by
    intro cs
    induction cs with
    | nil =>
        intro q
        simp
    | cons c rest ih =>
        intro q
        simp only [List.foldl_cons, ih, handoffSend, if_pos trivial,
          List.length_append, List.length_cons, List.length]
        omega
  simpa using h cs []

/- ---------------------------------------------------------------------
The claims.
--------------------------------------------------------------------- -/

/-- C1: for every sequence of `InputEvent` values enqueued into the
outbound pump's queue, the serialized frames written to the wire are
exactly the encodings of a prefix of the enqueued events in enqueue
order — and when the write half never fails they are the encodings of
all of them, in order (FIFO per connection): the single pump task
drains the queue one event at a time. -/
theorem pump_wire_fifo (sendRes : Nat → SendResult) (evts : List InputEvent) :
    (∃ k, (pumpRun sendRes evts).1 = (evts.take k).map encodeInputEvent)
    ∧ ((∀ i, sendRes i = SendResult.ok) →
        (pumpRun sendRes evts).1 = evts.map encodeInputEvent) := by
  constructor
  · simpa using pumpLoop_wire_take sendRes evts 0 []
  · intro hok
    simpa using pumpLoop_wire_all_ok sendRes hok evts 0 []

/-- Witness for C1 at a concrete queue: two events come out in enqueue
order. -/
theorem pump_wire_fifo_witness :
    (pumpRun (fun _ => SendResult.ok)
        [InputEvent.commit_audio, InputEvent.clear_audio]).1
      = [encodeInputEvent InputEvent.commit_audio,
         encodeInputEvent InputEvent.clear_audio] :=
  (pump_wire_fifo (fun _ => SendResult.ok)
    [InputEvent.commit_audio, InputEvent.clear_audio]).2 (fun _ => rfl)

/-- C2: a malformed inbound frame (one `processMsg` drops) is invisible
to the consumer: the delivered sequence over any interleaving equals
the delivered sequence with the malformed frame removed, and in general
equals the decoded sequence of the decodable frames alone.  The
`filter_map` never errors and never ends the stream on a dropped
frame. -/
theorem inbound_malformed_frames_invisible (msgs pre post : List WsResult)
    (bad : WsResult) (hbad : processMsg bad = none) :
    processInbound (pre ++ bad :: post) = processInbound (pre ++ post)
    ∧ processInbound msgs
        = processInbound (msgs.filter (fun m => (processMsg m).isSome)) := by
  constructor
  · simp [processInbound, List.filterMap_append, hbad]
  · induction msgs with
    | nil => rfl
    | cons m rest ih =>
        cases hm : processMsg m <;>
          simp [processInbound, List.filter_cons, hm, ih] <;>
          simpa [processInbound] using ih

/-- Witness for C2: a websocket error interleaved after one valid
`session.created` frame leaves the delivered sequence unchanged. -/
theorem inbound_malformed_frames_invisible_witness :
    processInbound
        [WsResult.ok (WsMessage.text (some (Json.obj
          [("type", Json.str "session.created"), ("session", Json.obj [])]))),
         WsResult.err]
      = processInbound
          [WsResult.ok (WsMessage.text (some (Json.obj
            [("type", Json.str "session.created"), ("session", Json.obj [])])))] :=
  (inbound_malformed_frames_invisible []
    [WsResult.ok (WsMessage.text (some (Json.obj
      [("type", Json.str "session.created"), ("session", Json.obj [])])))]
    [] WsResult.err rfl).1

/-- C3 (counterexample): on a rejected handshake, `realtime_voice`
panics (the `.unwrap()` after `inspect_err`) instead of returning a
connection error to the caller. -/
theorem connect_rejected_handshake_cex :
    realtime_voice_connect (Except.error ConnError.badCredentials)
        = ConnectOutcome.panicked
    ∧ realtime_voice_connect (Except.error ConnError.badCredentials)
        ≠ ConnectOutcome.errorReturned ConnError.badCredentials := by
  decide

/-- C3 (amended): for every connect call whose upgrade handshake is
rejected, `initiate_websocket` propagates the error from its single
connection attempt, and `realtime_voice` then logs it and panics — it
neither succeeds, nor retries, nor returns the error as its result;
only a successful handshake yields a connected session. -/
theorem connect_rejected_handshake_behaviour (e : ConnError) :
    realtime_voice_connect (Except.error e) = ConnectOutcome.panicked
    ∧ initiate_websocket (Except.error e) = Except.error e
    ∧ ∀ ws : WebSocket, realtime_voice_connect (Except.ok ws) = ConnectOutcome.ok ws :=
  ⟨rfl, rfl, fun _ => rfl⟩

/-- C4: from an empty jitter buffer, pushing `[1, 2, 3]` to the back and
pulling 5 times yields exactly `[1, 2, 3, 0, 0]` (silence substituted
on each underrun pull); an uncontended pull always returns immediately
with a sample — the front of the queue or silence — so the caller is
never blocked waiting for data. -/
theorem jitter_buffer_push_pull_scenario :
    jbPulls 5 (jbPush [] [1, 2, 3]) = ([some 1, some 2, some 3, some 0, some 0], [])
    ∧ ∀ q : List Int, (jbNext false q).1 = some (q.headD 0) := by
  refine ⟨rfl, ?_⟩
  intro q
  cases q <;> rfl

/-- C5: evaluating the reader at the failing input — lock contended,
queue `[5]` — the pull yields `none` (which ends the `Iterator`-based
sample stream) rather than the zero sample the spec and the type's own
"one continuous audio stream" comment promise; silence is produced only
on an empty queue with the lock held. -/
theorem jitter_buffer_contended_pull :
    jbNext true [5] = (none, [5])
    ∧ jbNext true [5] ≠ (some 0, [5])
    ∧ jbNext false [] = (some 0, []) := by
  refine ⟨rfl, by decide, rfl⟩

/-- C6: encoding a `Session` with only `voice` and `input_audio_format`
set produces a frame holding exactly those two fields (unset fields are
omitted, not emitted as `null`), and decoding that frame restores a
`Session` with exactly those two fields populated and all others
absent. -/
theorem session_voice_format_roundtrip (v : String) :
    encodeSession ⟨none, none, some v, none, some AudioFormat.Pcm16,
        none, none, none, none, none⟩
      = Json.obj [("voice", Json.str v), ("input_audio_format", Json.str "pcm16")]
    ∧ decodeSession (encodeSession ⟨none, none, some v, none,
        some AudioFormat.Pcm16, none, none, none, none, none⟩)
      = some ⟨none, none, some v, none, some AudioFormat.Pcm16,
          none, none, none, none, none⟩ :=
  ⟨rfl, decodeSession_encodeSession _⟩

/-- C7: every wire frame that decodes to a `SessionUpdated` event
decodes to the same typed value after re-encoding
(decode-encode-decode idempotence). -/
theorem session_updated_decode_encode_decode (j : Json) (ev : ReceivedEvent)
    (s : Session) (hdec : decodeReceivedEvent j = some ev)
    (hupd : ev.data = ReceivedEventKind.Session (SessionEvent.SessionUpdated s)) :
    decodeReceivedEvent (encodeReceivedEvent ev) = some ev := by
  obtain ⟨eid, data⟩ := ev
  cases hupd
  exact decodeReceivedEvent_roundtrip_updated eid s

/-- Witness for C7 at a concrete `session.updated` frame. -/
theorem session_updated_decode_encode_decode_witness :
    decodeReceivedEvent (encodeReceivedEvent
        ⟨none, ReceivedEventKind.Session (SessionEvent.SessionUpdated
          ⟨none, none, none, none, none, none, none, none, none, none⟩)⟩)
      = some ⟨none, ReceivedEventKind.Session (SessionEvent.SessionUpdated
          ⟨none, none, none, none, none, none, none, none, none, none⟩)⟩ :=
  session_updated_decode_encode_decode
    (Json.obj [("type", Json.str "session.updated"), ("session", Json.obj [])])
    _ _ rfl rfl

/-- C8 (counterexample): the capture handoff
(`std::sync::mpsc::channel`) has no capacity bound: no `B` bounds the
number of buffered chunks over all send sequences. -/
theorem capture_handoff_no_bound_cex :
    ¬ ∃ B : Nat, ∀ cs : List Chunk, (handoffAfterSends cs).length ≤ B := by
  rintro ⟨B, hB⟩
  have h := hB (List.replicate (B + 1) ⟨[]⟩)
  rw [handoffAfterSends_length] at h
  simp at h

/-- C8 (amended): the handoff from the capture callback to the
resampling worker is an unbounded channel: a send never blocks and
always appends the chunk while the receiver is connected (the chunk is
discarded only when the receiver has disconnected), so nothing is ever
dropped for fullness and the number of buffered capture chunks is not
bounded. -/
theorem capture_handoff_send_behaviour (q : List Chunk) (c : Chunk) :
    handoffSend true q c = q ++ [c]
    ∧ handoffSend false q c = q
    ∧ (handoffSend true q c).length = q.length + 1 :=
  ⟨rfl, rfl, by simp [handoffSend]⟩

/-- C9 (counterexample): on a transport error the pump task panicks
(the `unwrap` on `ws_tx.send`), and nothing — no `TransportError` — is
surfaced to whoever awaits the session: the `JoinHandle` is dropped. -/
theorem pump_error_not_surfaced_cex :
    (pumpRun (fun _ => SendResult.transportError) [InputEvent.commit_audio]).2
        = PumpExit.panicked
    ∧ pumpSurfacedToCaller [InputEvent.commit_audio]
        (fun _ => SendResult.transportError) ≠ some SendResult.transportError :=
  ⟨rfl, by decide⟩

/-- C9 (amended): the pump exits exactly when its queue is closed (all
senders dropped) or the write half reports a transport error — queue
closure exactly when every attempted send succeeded — but in the
transport-error case it panics inside its own detached task and no
`TransportError` reaches the caller. -/
theorem pump_exit_behaviour (sendRes : Nat → SendResult) (evts : List InputEvent) :
    ((pumpRun sendRes evts).2 = PumpExit.queueClosed
      ∨ (pumpRun sendRes evts).2 = PumpExit.panicked)
    ∧ ((pumpRun sendRes evts).2 = PumpExit.queueClosed
        ↔ ∀ k < evts.length, sendRes k = SendResult.ok)
    ∧ pumpSurfacedToCaller evts sendRes = none := by
  refine ⟨?_, ?_, rfl⟩
  · cases h : (pumpRun sendRes evts).2
    · exact Or.inl rfl
    · exact Or.inr rfl
  · simpa using pumpLoop_exit_closed_iff sendRes evts 0 []

/-- Witness for C9 (amended) at a concrete run with a healthy write
half: the pump exits by queue closure. -/
theorem pump_exit_behaviour_witness :
    (pumpRun (fun _ => SendResult.ok) [InputEvent.commit_audio]).2
      = PumpExit.queueClosed :=
  (pump_exit_behaviour (fun _ => SendResult.ok) [InputEvent.commit_audio]).2.1.mpr
    (fun _ _ => rfl)

/-- C10: every builder method on `Session` (`voice`, `instructions`,
`turn_detection`, `input_audio_format`, `output_audio_format`,
`modalities`, `speed`) sets exactly its own named field to the supplied
value and leaves every other field unchanged, and `Session::new()`
yields a `Session` with every field absent. -/
theorem session_builders_frame_effect (s : Session) (v w : String)
    (cfg : TurnDetection) (fmtIn fmtOut : AudioFormat) (ms : List Modality)
    (sp : Rat) :
    Session.new.modalities = none
    ∧ Session.new.instructions = none
    ∧ Session.new.voice = none
    ∧ Session.new.turn_detection = none
    ∧ Session.new.input_audio_format = none
    ∧ Session.new.output_audio_format = none
    ∧ Session.new.input_audio_transcription = none
    ∧ Session.new.tools = none
    ∧ Session.new.temperature = none
    ∧ Session.new.speed = none
    ∧ (s.voice' v).modalities = s.modalities
    ∧ (s.voice' v).instructions = s.instructions
    ∧ (s.voice' v).voice = some v
    ∧ (s.voice' v).turn_detection = s.turn_detection
    ∧ (s.voice' v).input_audio_format = s.input_audio_format
    ∧ (s.voice' v).output_audio_format = s.output_audio_format
    ∧ (s.voice' v).input_audio_transcription = s.input_audio_transcription
    ∧ (s.voice' v).tools = s.tools
    ∧ (s.voice' v).temperature = s.temperature
    ∧ (s.voice' v).speed = s.speed
    ∧ (s.instructions' w).modalities = s.modalities
    ∧ (s.instructions' w).instructions = some w
    ∧ (s.instructions' w).voice = s.voice
    ∧ (s.instructions' w).turn_detection = s.turn_detection
    ∧ (s.instructions' w).input_audio_format = s.input_audio_format
    ∧ (s.instructions' w).output_audio_format = s.output_audio_format
    ∧ (s.instructions' w).input_audio_transcription = s.input_audio_transcription
    ∧ (s.instructions' w).tools = s.tools
    ∧ (s.instructions' w).temperature = s.temperature
    ∧ (s.instructions' w).speed = s.speed
    ∧ (s.turn_detection' cfg).modalities = s.modalities
    ∧ (s.turn_detection' cfg).instructions = s.instructions
    ∧ (s.turn_detection' cfg).voice = s.voice
    ∧ (s.turn_detection' cfg).turn_detection = some cfg
    ∧ (s.turn_detection' cfg).input_audio_format = s.input_audio_format
    ∧ (s.turn_detection' cfg).output_audio_format = s.output_audio_format
    ∧ (s.turn_detection' cfg).input_audio_transcription = s.input_audio_transcription
    ∧ (s.turn_detection' cfg).tools = s.tools
    ∧ (s.turn_detection' cfg).temperature = s.temperature
    ∧ (s.turn_detection' cfg).speed = s.speed
    ∧ (s.input_audio_format' fmtIn).modalities = s.modalities
    ∧ (s.input_audio_format' fmtIn).instructions = s.instructions
    ∧ (s.input_audio_format' fmtIn).voice = s.voice
    ∧ (s.input_audio_format' fmtIn).turn_detection = s.turn_detection
    ∧ (s.input_audio_format' fmtIn).input_audio_format = some fmtIn
    ∧ (s.input_audio_format' fmtIn).output_audio_format = s.output_audio_format
    ∧ (s.input_audio_format' fmtIn).input_audio_transcription = s.input_audio_transcription
    ∧ (s.input_audio_format' fmtIn).tools = s.tools
    ∧ (s.input_audio_format' fmtIn).temperature = s.temperature
    ∧ (s.input_audio_format' fmtIn).speed = s.speed
    ∧ (s.output_audio_format' fmtOut).modalities = s.modalities
    ∧ (s.output_audio_format' fmtOut).instructions = s.instructions
    ∧ (s.output_audio_format' fmtOut).voice = s.voice
    ∧ (s.output_audio_format' fmtOut).turn_detection = s.turn_detection
    ∧ (s.output_audio_format' fmtOut).input_audio_format = s.input_audio_format
    ∧ (s.output_audio_format' fmtOut).output_audio_format = some fmtOut
    ∧ (s.output_audio_format' fmtOut).input_audio_transcription = s.input_audio_transcription
    ∧ (s.output_audio_format' fmtOut).tools = s.tools
    ∧ (s.output_audio_format' fmtOut).temperature = s.temperature
    ∧ (s.output_audio_format' fmtOut).speed = s.speed
    ∧ (s.modalities' ms).modalities = some ms
    ∧ (s.modalities' ms).instructions = s.instructions
    ∧ (s.modalities' ms).voice = s.voice
    ∧ (s.modalities' ms).turn_detection = s.turn_detection
    ∧ (s.modalities' ms).input_audio_format = s.input_audio_format
    ∧ (s.modalities' ms).output_audio_format = s.output_audio_format
    ∧ (s.modalities' ms).input_audio_transcription = s.input_audio_transcription
    ∧ (s.modalities' ms).tools = s.tools
    ∧ (s.modalities' ms).temperature = s.temperature
    ∧ (s.modalities' ms).speed = s.speed
    ∧ (s.speed' sp).modalities = s.modalities
    ∧ (s.speed' sp).instructions = s.instructions
    ∧ (s.speed' sp).voice = s.voice
    ∧ (s.speed' sp).turn_detection = s.turn_detection
    ∧ (s.speed' sp).input_audio_format = s.input_audio_format
    ∧ (s.speed' sp).output_audio_format = s.output_audio_format
    ∧ (s.speed' sp).input_audio_transcription = s.input_audio_transcription
    ∧ (s.speed' sp).tools = s.tools
    ∧ (s.speed' sp).temperature = s.temperature
    ∧ (s.speed' sp).speed = some sp :=
  ⟨rfl, rfl, rfl, rfl, rfl, rfl, rfl, rfl, rfl, rfl, rfl, rfl, rfl, rfl, rfl, rfl, rfl, rfl, rfl, rfl, rfl, rfl, rfl, rfl, rfl, rfl, rfl, rfl, rfl, rfl, rfl, rfl, rfl, rfl, rfl, rfl, rfl, rfl, rfl, rfl, rfl, rfl, rfl, rfl, rfl, rfl, rfl, rfl, rfl, rfl, rfl, rfl, rfl, rfl, rfl, rfl, rfl, rfl, rfl, rfl, rfl, rfl, rfl, rfl, rfl, rfl, rfl, rfl, rfl, rfl, rfl, rfl, rfl, rfl, rfl, rfl, rfl, rfl, rfl, rfl⟩
